import Mathlib

/-!
Verification of the extensible-factory program
(src/Creational/ExtensibleFactory/ExtensibleFactory.cpp).

Shallow embedding: the static state of the program (the registry map
`GameObjectFactory::s_Objects` together with the per-class static
`ObjectsCreated` counters) is a `FactoryState` record; creation callbacks
read and update the counter component; the nullable `IGameObject*` returned
by `CreateSingleObject` is an `Option GameObj`, with `none` standing for
`nullptr`; the loader loop and the update/render loop of `main` are
recursive functions over the list of lines and over the loaded collection.
-/

/-- The concrete variants of the source: classes `Plane`, `Boat`, `Ant`.
None of them stores a data member (the constructor arguments `x`, `y` are
discarded), so the variants carry no fields. -/
inductive GameObj : Type
  | plane : GameObj
  | boat : GameObj
  | ant : GameObj
deriving DecidableEq

/-- The per-class static counters `Plane::ObjectsCreated`,
`Boat::ObjectsCreated`, `Ant::ObjectsCreated`, each initialized to 0. -/
@[ext] structure Counters : Type where
  planeObjectsCreated : Int
  boatObjectsCreated : Int
  antObjectsCreated : Int
deriving DecidableEq

/-- `typedef IGameObject *(*CreateObjectCallback)()`: a zero-argument
creation callback. The variant constructors increment their static counter,
so in the embedding a callback consumes and returns the counter state
besides producing the new object. -/
abbrev CreateObjectCallback : Type := Counters → GameObj × Counters

/-- Constructor `Plane::Plane(int x, int y)`: ignores both arguments and
performs `ObjectsCreated++` on the `Plane` counter. -/
def Plane.mk (_x _y : Int) (c : Counters) : GameObj × Counters :=
  (GameObj.plane, { c with planeObjectsCreated := c.planeObjectsCreated + 1 })

/-- `Plane::Create()`: `return new Plane(0, 0);`. -/
def Plane.Create : CreateObjectCallback := fun c => Plane.mk 0 0 c

/-- Constructor `Boat::Boat(int x, int y)`: ignores both arguments and
performs `ObjectsCreated++` on the `Boat` counter. -/
def Boat.mk (_x _y : Int) (c : Counters) : GameObj × Counters :=
  (GameObj.boat, { c with boatObjectsCreated := c.boatObjectsCreated + 1 })

/-- `Boat::Create()`: `return new Boat(0, 0);`. -/
def Boat.Create : CreateObjectCallback := fun c => Boat.mk 0 0 c

/-- Constructor `Ant::Ant(int x, int y)`: ignores both arguments and
performs `ObjectsCreated++` on the `Ant` counter. -/
def Ant.mk (_x _y : Int) (c : Counters) : GameObj × Counters :=
  (GameObj.ant, { c with antObjectsCreated := c.antObjectsCreated + 1 })

/-- `Ant::Create()`: `return new Ant(0, 0);`. -/
def Ant.Create : CreateObjectCallback := fun c => Ant.mk 0 0 c

/-- The static state of the program: the registry
`GameObjectFactory::s_Objects : std::map<std::string, CreateObjectCallback>`
(modelled extensionally as a partial map from identifier to callback) and
the per-class counters. -/
@[ext] structure FactoryState : Type where
  s_Objects : String → Option CreateObjectCallback
  counters : Counters

/-- `GameObjectFactory::RegisterObject(type, cb)`: `s_Objects[type] = cb;`
inserts the entry, overwriting any previous entry for `type`. -/
def RegisterObject (type : String) (cb : CreateObjectCallback)
    (st : FactoryState) : FactoryState :=
  { st with s_Objects := fun t => if t = type then some cb else st.s_Objects t }

/-- `GameObjectFactory::UnregisterObject(type)`: `s_Objects.erase(type);`
removes the entry if present, and does nothing otherwise. -/
def UnregisterObject (type : String) (st : FactoryState) : FactoryState :=
  { st with s_Objects := fun t => if t = type then none else st.s_Objects t }

/-- `GameObjectFactory::CreateSingleObject(type)`: looks `type` up in
`s_Objects`; on a hit invokes the stored callback (which updates the counter
of its variant) and returns the new object; on a miss returns `nullptr`
(modelled as `none`), exactly as the source does at its
`return nullptr;` line. -/
def CreateSingleObject (type : String) (st : FactoryState) :
    Option GameObj × FactoryState :=
  match st.s_Objects type with
  | some cb => (some (cb st.counters).1, { st with counters := (cb st.counters).2 })
  | none => (none, st)

/-- The loader loop of `main`: for each line read from the file, call
`CreateSingleObject(line)` and `push_back` the result into
`gameObjectCollection`, with no check of the returned pointer. -/
def loadCatalog : List String → FactoryState → List (Option GameObj) × FactoryState
  | [], st => ([], st)
  | line :: rest, st =>
      let created := CreateSingleObject line st
      let loaded := loadCatalog rest created.2
      (created.1 :: loaded.1, loaded.2)

/-- The `if (myFile.is_open())` guard of `main`: when the file is absent the
loader loop never runs and the collection stays empty; otherwise the loop
consumes each line of the file in order. -/
def mainLoad (myFile : Option (List String)) (st : FactoryState) :
    List (Option GameObj) × FactoryState :=
  match myFile with
  | some lines => loadCatalog lines st
  | none => ([], st)

/-- One observable virtual call of the simulation loop: `e->Update()` or
`e->Render()` invoked on the pointer `e` held in the collection. -/
inductive TickEvent : Type
  | update : Option GameObj → TickEvent
  | render : Option GameObj → TickEvent
deriving DecidableEq

/-- The simulation loop of `main`:
`for (auto& e : gameObjectCollection) { e->Update(); e->Render(); }`,
modelled as the trace of virtual calls it performs, in order. -/
def tick (gameObjectCollection : List (Option GameObj)) : List TickEvent :=
  gameObjectCollection.foldl
    (fun acc e => acc ++ [TickEvent.update e, TickEvent.render e]) []

/-- Program startup state: the registry map is empty and every static
counter is 0. -/
def initialState : FactoryState :=
  { s_Objects := fun _ => none
    counters := { planeObjectsCreated := 0, boatObjectsCreated := 0, antObjectsCreated := 0 } }

/-- The registry as `main` builds it: `RegisterObject("plane", Plane::Create)`,
then `"boat"`, then `"ant"`. -/
def mainRegistry : FactoryState :=
  RegisterObject "ant" Ant.Create
    (RegisterObject "boat" Boat.Create
      (RegisterObject "plane" Plane.Create initialState))

/-- The registry of the spec scenarios that register only `"plane"` and
`"boat"`. -/
def planeBoatRegistry : FactoryState :=
  RegisterObject "boat" Boat.Create
    (RegisterObject "plane" Plane.Create initialState)

/-- `CreateSingleObject` never changes the registry map: it only reads
`s_Objects` and lets the callback update the counters. -/
lemma createSingleObject_s_Objects_frame (type : String) (st : FactoryState) :
    ((CreateSingleObject type st).2).s_Objects = st.s_Objects := by
  unfold CreateSingleObject
  cases h : st.s_Objects type <;> rfl

/-- The loader loop never changes the registry map either: it only calls
`CreateSingleObject` repeatedly. -/
lemma loadCatalog_s_Objects_frame (ids : List String) :
    ∀ st : FactoryState, ((loadCatalog ids st).2).s_Objects = st.s_Objects := by
  induction ids with
  | nil => intro st; rfl
  | cons i rest ih =>
      intro st
      show ((loadCatalog rest (CreateSingleObject i st).2).2).s_Objects = st.s_Objects
      rw [ih, createSingleObject_s_Objects_frame]

/-- Accumulator form of the simulation loop trace. -/
lemma tick_foldl_general (cat : List (Option GameObj)) (acc : List TickEvent) :
    cat.foldl (fun a e => a ++ [TickEvent.update e, TickEvent.render e]) acc
      = acc ++ cat.flatMap (fun e => [TickEvent.update e, TickEvent.render e]) := by
  induction cat generalizing acc with
  | nil => simp
  | cons x xs ih => simp [List.foldl, ih]

/-- Claim C1: the source does not fail with a NotFound error on an
unregistered identifier; `CreateSingleObject("unicorn")` against the
registry that `main` builds returns the null pointer `none`, and the loader
pushes that null into the catalog as if it were a success value. This
evaluates the code at the failing input of the claim. -/
theorem c1_create_unknown_returns_null_into_catalog :
    (CreateSingleObject "unicorn" mainRegistry).1 = none ∧
    (loadCatalog ["unicorn"] mainRegistry).1 = [none] := by
  constructor <;> rfl

/-- Claim C2: the source does not skip unknown identifiers; loading
`["plane", "unicorn", "boat"]` with only `"plane"` and `"boat"` registered
yields a catalog of length 3 with a null placeholder in the middle, not the
length-2 catalog `[Plane, Boat]` the claim states. This evaluates the code
at the failing input of the claim. -/
theorem c2_load_inserts_null_placeholder :
    (loadCatalog ["plane", "unicorn", "boat"] planeBoatRegistry).1
      = [some GameObj.plane, none, some GameObj.boat] ∧
    ((loadCatalog ["plane", "unicorn", "boat"] planeBoatRegistry).1).length = 3 := by
  constructor <;> rfl

/-- Claim C3: the simulation loop visits the catalog in stored order and,
for each member, performs the update call immediately followed by the render
call before moving on: the whole trace is the in-order concatenation of the
per-member pairs, and for a catalog `[A, B]` the trace is exactly
`A.Update, A.Render, B.Update, B.Render`. -/
theorem c3_tick_update_immediately_before_render :
    (∀ cat : List (Option GameObj),
      tick cat = cat.flatMap (fun e => [TickEvent.update e, TickEvent.render e])) ∧
    (∀ A B : GameObj,
      tick [some A, some B]
        = [TickEvent.update (some A), TickEvent.render (some A),
           TickEvent.update (some B), TickEvent.render (some B)]) := by
  constructor
  · intro cat
    simpa using tick_foldl_general cat []
  · intro A B
    rfl

/-- Claim C7: an absent identifier source (the file is not open) and an
empty identifier source both produce a catalog of length 0, and the
simulation loop on that catalog performs zero update and zero render
calls. -/
theorem c7_empty_or_missing_source_empty_catalog (st : FactoryState) :
    (mainLoad none st).1 = [] ∧
    (mainLoad (some []) st).1 = [] ∧
    tick (mainLoad none st).1 = [] ∧
    tick (mainLoad (some []) st).1 = [] :=
  ⟨rfl, rfl, rfl, rfl⟩

/-- Claim C10: each call of `Plane::Create`, `Boat::Create` or `Ant::Create`
increments exactly the `ObjectsCreated` counter of its own variant by one
and leaves the counters of the other two variants unchanged. -/
theorem c10_counters_increment_per_variant (c : Counters) :
    ((Plane.Create c).2.planeObjectsCreated = c.planeObjectsCreated + 1 ∧
     (Plane.Create c).2.boatObjectsCreated = c.boatObjectsCreated ∧
     (Plane.Create c).2.antObjectsCreated = c.antObjectsCreated) ∧
    ((Boat.Create c).2.boatObjectsCreated = c.boatObjectsCreated + 1 ∧
     (Boat.Create c).2.planeObjectsCreated = c.planeObjectsCreated ∧
     (Boat.Create c).2.antObjectsCreated = c.antObjectsCreated) ∧
    ((Ant.Create c).2.antObjectsCreated = c.antObjectsCreated + 1 ∧
     (Ant.Create c).2.planeObjectsCreated = c.planeObjectsCreated ∧
     (Ant.Create c).2.boatObjectsCreated = c.boatObjectsCreated) :=
  ⟨⟨rfl, rfl, rfl⟩, ⟨rfl, rfl, rfl⟩, ⟨rfl, rfl, rfl⟩⟩

/-- Claim C4: the loader preserves input order and index alignment. For any
state whose registered callbacks produce an object that does not depend on
the current counter values (true of every callback of the source), the
loaded catalog is exactly the pointwise image of the identifier list under
the registry lookup, in input order. -/
theorem c4_load_preserves_order (ids : List String) (st : FactoryState)
    (h : ∀ id cb, st.s_Objects id = some cb →
      ∀ c1 c2 : Counters, (cb c1).1 = (cb c2).1) :
    (loadCatalog ids st).1
      = ids.map (fun id => Option.map (fun cb => (cb st.counters).1) (st.s_Objects id)) := by
  induction ids generalizing st with
  | nil => rfl
  | cons i rest ih =>
      show (CreateSingleObject i st).1 :: (loadCatalog rest (CreateSingleObject i st).2).1 = _
      cases hcb : st.s_Objects i with
      | none =>
          have hc : CreateSingleObject i st = (none, st) := by
            simp [CreateSingleObject, hcb]
          rw [hc]
          simp only [List.map, hcb, Option.map_none]
          exact congrArg (List.cons none) (ih st h)
      | some cb =>
          have hframe : ((CreateSingleObject i st).2).s_Objects = st.s_Objects :=
            createSingleObject_s_Objects_frame i st
          have ihtail := ih (CreateSingleObject i st).2 (by
            intro id cb2 hid
            rw [hframe] at hid
            exact h id cb2 hid)
          rw [ihtail, hframe]
          have hhead : (CreateSingleObject i st).1 = some ((cb st.counters).1) := by
            simp [CreateSingleObject, hcb]
          rw [hhead]
          simp only [List.map, hcb, Option.map_some]
          refine congrArg (List.cons _) (List.map_congr_left ?_)
          intro x _
          cases hx : st.s_Objects x with
          | none => rfl
          | some cbx =>
              simp only [Option.map_some']
              exact congrArg some (h x cbx hx _ _)

/-- Witness for C4 at the scenario of the claim: with only `"plane"` and
`"boat"` registered, loading `["plane", "boat", "plane"]` yields exactly
`[Plane, Boat, Plane]` in that order. -/
theorem c4_load_preserves_order_witness :
    (loadCatalog ["plane", "boat", "plane"] planeBoatRegistry).1
      = [some GameObj.plane, some GameObj.boat, some GameObj.plane] := by
  have h : ∀ id cb, planeBoatRegistry.s_Objects id = some cb →
      ∀ c1 c2 : Counters, (cb c1).1 = (cb c2).1 := by
    intro id cb hid c1 c2
    by_cases hb : id = "boat"
    · subst hb
      rw [show planeBoatRegistry.s_Objects "boat" = some Boat.Create from rfl] at hid
      cases Option.some.inj hid
      rfl
    · by_cases hp : id = "plane"
      · subst hp
        rw [show planeBoatRegistry.s_Objects "plane" = some Plane.Create from rfl] at hid
        cases Option.some.inj hid
        rfl
      · rw [show planeBoatRegistry.s_Objects id
              = (if id = "boat" then some Boat.Create
                 else if id = "plane" then some Plane.Create else none) from rfl] at hid
        simp [hb, hp] at hid
  rw [c4_load_preserves_order ["plane", "boat", "plane"] planeBoatRegistry h]
  rfl

/-- Claim C5: registering an already-present key is last-write-wins: the
state after registering `f` and then `g` under the same identifier equals
the state after registering `g` alone, a subsequent create for that
identifier uses `g`, and a create performed before the re-registration used
`f`. -/
theorem c5_register_last_write_wins (st : FactoryState) (id : String)
    (f g : CreateObjectCallback) :
    RegisterObject id g (RegisterObject id f st) = RegisterObject id g st ∧
    (CreateSingleObject id (RegisterObject id g (RegisterObject id f st))).1
      = some ((g st.counters).1) ∧
    (CreateSingleObject id (RegisterObject id f st)).1 = some ((f st.counters).1) := by
  refine ⟨?_, ?_, ?_⟩
  · simp only [RegisterObject]
    congr 1
    funext t
    by_cases ht : t = id <;> simp [ht]
  · simp [CreateSingleObject, RegisterObject]
  · simp [CreateSingleObject, RegisterObject]

/-- Claim C6: after unregistering `k`, a create for `k` finds no factory and
yields no object (the miss result); and unregistering an identifier with no
entry leaves the whole state unchanged. -/
theorem c6_unregister_removes_entry (st : FactoryState) (k : String) :
    (CreateSingleObject k (UnregisterObject k st)).1 = none ∧
    (st.s_Objects k = none → UnregisterObject k st = st) := by
  constructor
  · simp [CreateSingleObject, UnregisterObject]
  · intro h
    simp only [UnregisterObject]
    cases st with
    | mk so c =>
        simp only [FactoryState.mk.injEq, and_true]
        funext t
        by_cases ht : t = k
        · subst ht
          simpa using h.symm
        · simp [ht]

/-- Witness for C6 at a concrete input: unregistering `"unicorn"` from the
startup state, where it was never registered, is a no-op, and a subsequent
create for it yields no object. -/
theorem c6_unregister_removes_entry_witness :
    (CreateSingleObject "unicorn" (UnregisterObject "unicorn" initialState)).1 = none ∧
    UnregisterObject "unicorn" initialState = initialState :=
  ⟨(c6_unregister_removes_entry initialState "unicorn").1,
   (c6_unregister_removes_entry initialState "unicorn").2 rfl⟩

/-- Claim C8: with two distinct identifiers registered to the plane and boat
factories, a create for each identifier yields a fresh object of exactly the
variant registered under that key; moreover a create reflects the most
recent register or unregister for its key: right after re-registering a
callback the create uses it, and right after unregistering the create finds
nothing. -/
theorem c8_create_matches_registered_variant (k1 k2 : String) (st : FactoryState)
    (_hne : k1 ≠ k2)
    (h1 : st.s_Objects k1 = some Plane.Create)
    (h2 : st.s_Objects k2 = some Boat.Create) :
    (CreateSingleObject k1 st).1 = some GameObj.plane ∧
    (CreateSingleObject k2 st).1 = some GameObj.boat ∧
    (∀ cb : CreateObjectCallback,
      (CreateSingleObject k1 (RegisterObject k1 cb st)).1 = some ((cb st.counters).1)) ∧
    (CreateSingleObject k1 (UnregisterObject k1 st)).1 = none := by
  refine ⟨?_, ?_, ?_, ?_⟩
  · simp [CreateSingleObject, h1, Plane.Create, Plane.mk]
  · simp [CreateSingleObject, h2, Boat.Create, Boat.mk]
  · intro cb
    simp [CreateSingleObject, RegisterObject]
  · simp [CreateSingleObject, UnregisterObject]

/-- Witness for C8 at the concrete registry with `"plane"` and `"boat"`
registered: each create yields the variant registered under its key. -/
theorem c8_create_matches_registered_variant_witness :
    (CreateSingleObject "plane" planeBoatRegistry).1 = some GameObj.plane ∧
    (CreateSingleObject "boat" planeBoatRegistry).1 = some GameObj.boat := by
  have h1 : planeBoatRegistry.s_Objects "plane" = some Plane.Create := rfl
  have h2 : planeBoatRegistry.s_Objects "boat" = some Boat.Create := rfl
  have hne : ("plane" : String) ≠ "boat" := by decide
  exact ⟨(c8_create_matches_registered_variant "plane" "boat" planeBoatRegistry hne h1 h2).1,
         (c8_create_matches_registered_variant "plane" "boat" planeBoatRegistry hne h1 h2).2.1⟩

/-- Claim C9: creation never modifies the registry map: for every
identifier, registered or not, the identifier-to-factory mapping after
`CreateSingleObject` equals the mapping before the call, and the whole
loader loop preserves it as well. -/
theorem c9_create_preserves_registry_map :
    (∀ (type : String) (st : FactoryState),
      ((CreateSingleObject type st).2).s_Objects = st.s_Objects) ∧
    (∀ (ids : List String) (st : FactoryState),
      ((loadCatalog ids st).2).s_Objects = st.s_Objects) :=
  ⟨createSingleObject_s_Objects_frame, fun ids st => loadCatalog_s_Objects_frame ids st⟩
